import Mathlib

/-!
Verification development for the docker-jinja2-builder repository
(`builder.py`): a shallow embedding of its build-matrix expansion and
context-assembly pipeline, together with theorems settling the frozen
claims about it.

Conventions of the embedding:
* Python machine behaviour that raises is modelled with `Except PyError`.
* `None` values flowing through the code are modelled with `Option`.
* External collaborators (the filesystem walk `docker.utils.exclude_paths`,
  the jinja2 renderer, the docker build call) are abstract function
  parameters; everything implemented in `builder.py` itself is translated
  directly.
-/

namespace Builder

/-- Kinds of Python exceptions that the modelled code can raise. -/
inductive PyError : Type where
  | typeError (msg : String)
  | valueError (msg : String)
  | keyError (key : String)
  | ioError (msg : String)
  deriving DecidableEq, Repr

deriving instance DecidableEq for Except

/-- Whether an `Except` computation ended in an error. -/
def exceptIsError {ε α : Type} : Except ε α → Bool
  | .error _ => true
  | .ok _ => false

/-- Left brace character (written via its code point). -/
def lbrace : Char := Char.ofNat 123

/-- Right brace character (written via its code point). -/
def rbrace : Char := Char.ofNat 125

/-- Model of a Python `str.lstrip('/')`: drop all leading slashes. -/
def lstripSlash (s : String) : String := String.mk (s.data.dropWhile (fun c => c = '/'))

/-- Model of a Python `str.rstrip('/')`: drop all trailing slashes. -/
def rstripSlash (s : String) : String :=
  String.mk ((s.data.reverse.dropWhile (fun c => c = '/')).reverse)

/-- Scanner for Python `pattern.split('**')`: splits a character list at each
non-overlapping occurrence of two consecutive stars, left to right. -/
def pySplitMarkerGo : List Char → List Char → List (List Char)
  | acc, [] => [acc.reverse]
  | acc, '*' :: '*' :: rest => acc.reverse :: pySplitMarkerGo [] rest
  | acc, c :: rest => pySplitMarkerGo (c :: acc) rest

/-- Model of Python `pattern.split('**')`. -/
def pySplitMarker (p : String) : List String :=
  (pySplitMarkerGo [] p.data).map String.mk

/-- Model of the Python substring test `'**' in pattern`: the separator occurs
in the string iff splitting on it yields more than one part. -/
def hasMarker (p : String) : Bool := decide (2 ≤ (pySplitMarker p).length)

/-- One step of POSIX `os.path.join`: `join(a, b)`. -/
def pyJoin2 (a b : String) : String :=
  if (match b.data with | '/' :: _ => true | _ => false) then b
  else if a = "" then a ++ b
  else if (match a.data.getLast? with | some '/' => true | _ => false) then a ++ b
  else a ++ "/" ++ b

/-- Model of `os.path.join(*parts)` (left fold of `pyJoin2`). -/
def osJoin : List String → String
  | [] => ""
  | x :: xs => xs.foldl pyJoin2 x

/-- Source `builder.py:dir_wildcard_workaround`: split the pattern on `**`
into a header and a tail (a split that does not produce exactly two parts
raises a `ValueError`, as Python tuple unpacking does), strip the leading
slashes of the tail and the trailing slashes of the header, and emit one
joined pattern per depth level `i` in `range(20)`. -/
def dir_wildcard_workaround (pattern : String) : Except PyError (List String) :=
  match pySplitMarker pattern with
  | [header, tail] =>
      let tail2 := lstripSlash tail
      let header2 := rstripSlash header
      .ok ((List.range 20).map (fun i =>
        osJoin (header2 :: (List.replicate i "*" ++ [tail2]))))
  | parts =>
      .error (.valueError (if parts.length < 2 then "not enough values to unpack"
        else "too many values to unpack"))

/-- Loop body of `clean_dockerignore`: expand each pattern containing `**`
in place, pass the others through unchanged. -/
def clean_dockerignore_go : List String → Except PyError (List String)
  | [] => .ok []
  | p :: rest =>
      if hasMarker p then
        match dir_wildcard_workaround p with
        | .error e => .error e
        | .ok expanded =>
            match clean_dockerignore_go rest with
            | .error e => .error e
            | .ok tailPatterns => .ok (expanded ++ tailPatterns)
      else
        match clean_dockerignore_go rest with
        | .error e => .error e
        | .ok tailPatterns => .ok (p :: tailPatterns)

/-- Source `builder.py:clean_dockerignore`.  The argument is the value of the
`exclude` variable at the call site in `docker_context`: `None` when no
`.dockerignore` file exists (iterating it raises a `TypeError`), otherwise
the list of its non-empty lines. -/
def clean_dockerignore : Option (List String) → Except PyError (List String)
  | none => .error (.typeError "NoneType object is not iterable")
  | some patterns => clean_dockerignore_go patterns

/-- Lookup in a Python keyword-argument dictionary, modelled as an
association list (first binding wins, as dict keys are unique). -/
def envLookup (n : String) : List (String × String) → Option String
  | [] => none
  | (k, v) :: rest => if k = n then some v else envLookup n rest

/-- Scanner state of the `str.format` model: scanning literal text, having
just seen an unpaired left/right brace, or inside a replacement-field name
(accumulated in reverse). -/
inductive FmtMode : Type where
  | text
  | sawL
  | sawR
  | name (acc : List Char)
  deriving DecidableEq, Repr

/-- Prepend one literal character to the output of a format scan. -/
def consOut (c : Char) : Except PyError (List Char) → Except PyError (List Char)
  | .ok out => .ok (c :: out)
  | .error e => .error e

/-- Substitute one replacement field: look the name up in the keyword
environment and prepend its value, or fail with a `KeyError`. -/
def substField (env : List (String × String)) (acc : List Char) :
    Except PyError (List Char) → Except PyError (List Char)
  | .ok out =>
      match envLookup (String.mk acc.reverse) env with
      | some v => .ok (v.data ++ out)
      | none => .error (.keyError (String.mk acc.reverse))
  | .error e =>
      match envLookup (String.mk acc.reverse) env with
      | some _ => .error e
      | none => .error (.keyError (String.mk acc.reverse))

/-- Model of CPython `str.format` restricted to what this program's templates
use: named replacement fields (a name between one left and one right brace),
double-brace escapes, and the associated `KeyError` / `ValueError` failures.
Conversions, format specs and positional auto-numbering are not modelled
(never used by this program).  One character is consumed per step. -/
def pyFormatGo (env : List (String × String)) : List Char → FmtMode →
    Except PyError (List Char)
  | [], .text => .ok []
  | [], .sawL => .error (.valueError "Single left brace encountered in format string")
  | [], .sawR => .error (.valueError "Single right brace encountered in format string")
  | [], .name _ => .error (.valueError "expected right brace before end of string")
  | c :: cs, .text =>
      if c = lbrace then pyFormatGo env cs .sawL
      else if c = rbrace then pyFormatGo env cs .sawR
      else consOut c (pyFormatGo env cs .text)
  | c :: cs, .sawL =>
      if c = lbrace then consOut lbrace (pyFormatGo env cs .text)
      else if c = rbrace then substField env [] (pyFormatGo env cs .text)
      else pyFormatGo env cs (.name [c])
  | c :: cs, .sawR =>
      if c = rbrace then consOut rbrace (pyFormatGo env cs .text)
      else .error (.valueError "Single right brace encountered in format string")
  | c :: cs, .name acc =>
      if c = rbrace then substField env acc (pyFormatGo env cs .text)
      else if c = lbrace then .error (.valueError "unexpected left brace in field name")
      else pyFormatGo env cs (.name (c :: acc))

/-- Model of `template.format(**env)`. -/
def pyFormat (template : String) (env : List (String × String)) : Except PyError String :=
  match pyFormatGo env template.data .text with
  | .ok out => .ok (String.mk out)
  | .error e => .error e

/-- The replacement-field names a template references, collected by the same
scan that `pyFormatGo` performs (cases where the formatter raises regardless
of the environment contribute nothing). -/
def refNamesGo : List Char → FmtMode → List String
  | [], _ => []
  | c :: cs, .text =>
      if c = lbrace then refNamesGo cs .sawL
      else if c = rbrace then refNamesGo cs .sawR
      else refNamesGo cs .text
  | c :: cs, .sawL =>
      if c = lbrace then refNamesGo cs .text
      else if c = rbrace then "" :: refNamesGo cs .text
      else refNamesGo cs (.name [c])
  | c :: cs, .sawR =>
      if c = rbrace then refNamesGo cs .text
      else []
  | c :: cs, .name acc =>
      if c = rbrace then String.mk acc.reverse :: refNamesGo cs .text
      else if c = lbrace then []
      else refNamesGo cs (.name (c :: acc))

/-- The replacement-field names referenced by a template string. -/
def pyRefNames (template : String) : List String := refNamesGo template.data .text

/-! ### Model of `hashlib.sha1` (hex digest)

A direct implementation of SHA-1 over `Nat` with explicit reduction
modulo `2 ^ 32`, operating on the UTF-8 bytes of the input string; this is
the external hash primitive `get_image_name` uses. -/

/-- Truncate to a 32-bit word. -/
def w32 (n : Nat) : Nat := n % 4294967296

/-- Rotate a 32-bit word left by `k` bits. -/
def rotl (k n : Nat) : Nat := w32 ((n <<< k) ||| (n >>> (32 - k)))

/-- UTF-8 encoding of one character, as a list of byte values. -/
def utf8Bytes (c : Char) : List Nat :=
  let n := c.toNat
  if n < 128 then [n]
  else if n < 2048 then [192 + n / 64, 128 + n % 64]
  else if n < 65536 then [224 + n / 4096, 128 + (n / 64) % 64, 128 + n % 64]
  else [240 + n / 262144, 128 + (n / 4096) % 64, 128 + (n / 64) % 64, 128 + n % 64]

/-- UTF-8 bytes of a string (Python `s.encode('utf8')`). -/
def strBytes (s : String) : List Nat := (s.data.map utf8Bytes).flatten

/-- Big-endian byte representation of `n` on `k` bytes. -/
def beBytes (k n : Nat) : List Nat :=
  (List.range k).map (fun i => (n >>> (8 * (k - 1 - i))) % 256)

/-- SHA-1 message padding: append `0x80`, zero bytes up to 56 mod 64, and the
64-bit big-endian bit length. -/
def sha1pad (msg : List Nat) : List Nat :=
  msg ++ [128] ++ List.replicate ((119 - msg.length % 64) % 64) 0 ++ beBytes 8 (8 * msg.length)

/-- Big-endian 32-bit words from a byte list, four bytes at a time. -/
def group4 : List Nat → List Nat
  | b0 :: b1 :: b2 :: b3 :: rest => (((b0 * 256 + b1) * 256 + b2) * 256 + b3) :: group4 rest
  | _ => []

/-- Message-schedule extension: prepend `n` further words to the reversed
word list (most recent first). -/
def extendW : Nat → List Nat → List Nat
  | 0, acc => acc
  | n + 1, acc =>
      extendW n (rotl 1 ((acc.getD 2 0) ^^^ (acc.getD 7 0) ^^^ (acc.getD 13 0) ^^^ (acc.getD 15 0)) :: acc)

/-- The SHA-1 working state: `(a, b, c, d, e)`. -/
abbrev Sha1State : Type := Nat × Nat × Nat × Nat × Nat

/-- One SHA-1 round with round index `i` and schedule word `wi`. -/
def sha1round (st : Sha1State) (i wi : Nat) : Sha1State :=
  let a := st.1; let b := st.2.1; let c := st.2.2.1; let d := st.2.2.2.1; let e := st.2.2.2.2
  let f := if i < 20 then (b &&& c) ||| ((b ^^^ 4294967295) &&& d)
    else if i < 40 then b ^^^ c ^^^ d
    else if i < 60 then (b &&& c) ||| (b &&& d) ||| (c &&& d)
    else b ^^^ c ^^^ d
  let k := if i < 20 then 1518500249
    else if i < 40 then 1859775393
    else if i < 60 then 2400959708
    else 3395469782
  (w32 (rotl 5 a + f + e + k + wi), a, rotl 30 b, c, d)

/-- Process one 64-byte chunk, updating the running hash value. -/
def sha1chunk (h : Sha1State) (chunkBytes : List Nat) : Sha1State :=
  let w16 := group4 chunkBytes
  let ws := (extendW 64 w16.reverse).reverse
  let st := ((List.range 80).zip ws).foldl (fun st p => sha1round st p.1 p.2) h
  (w32 (h.1 + st.1), w32 (h.2.1 + st.2.1), w32 (h.2.2.1 + st.2.2.1),
    w32 (h.2.2.2.1 + st.2.2.2.1), w32 (h.2.2.2.2 + st.2.2.2.2))

/-- Process `n` 64-byte chunks of the padded message. -/
def sha1chunksGo : Nat → List Nat → Sha1State → Sha1State
  | 0, _, h => h
  | n + 1, bytes, h => sha1chunksGo n (bytes.drop 64) (sha1chunk h (bytes.take 64))

/-- SHA-1 initial hash value. -/
def sha1init : Sha1State := (1732584193, 4023233417, 2562383102, 271733878, 3285377520)

/-- One lower-case hexadecimal digit. -/
def hexDigit (n : Nat) : Char := if n < 10 then Char.ofNat (48 + n) else Char.ofNat (87 + n)

/-- Lower-case hexadecimal rendering of a 32-bit word, always 8 digits. -/
def hex32 (n : Nat) : String :=
  String.mk ((List.range 8).map (fun i => hexDigit ((n >>> (28 - 4 * i)) % 16)))

/-- Model of `hashlib.sha1(s.encode('utf8')).hexdigest()`. -/
def sha1hex (s : String) : String :=
  let padded := sha1pad (strBytes s)
  let h := sha1chunksGo (padded.length / 64) padded sha1init
  hex32 h.1 ++ (hex32 h.2.1 ++ (hex32 h.2.2.1 ++ (hex32 h.2.2.2.1 ++ hex32 h.2.2.2.2)))

/-! ### Source embedding: `builder.py` -/

/-- A decoded docker build-log event (`log_line` in the source): an optional
`stream` text field, an optional `error` field, and the number of further
keys the decoded JSON object carries (`extra`, relevant only for the dict
truthiness test `if log_line:`). -/
structure LogLine : Type where
  stream : Option String := none
  error : Option String := none
  extra : Nat := 0
  deriving DecidableEq, Repr

/-- Source `builder.py:BuildingException`: wraps the offending log line. -/
structure BuildingException : Type where
  error : LogLine
  deriving DecidableEq, Repr

/-- Python truthiness of the decoded event dict (`if log_line:`): non-empty. -/
def line_truthy (l : LogLine) : Bool :=
  l.stream.isSome || l.error.isSome || decide (0 < l.extra)

/-- Truthiness of `log_line.get('error', None)`: an `error` key is present
and its value is a non-empty string. -/
def error_truthy (l : LogLine) : Bool :=
  match l.error with
  | some s => decide (s ≠ "")
  | none => false

/-- The text `print(log_line.get('stream'), end="")` emits for one non-error
event: nothing for a falsy (empty) dict, the stream text when present, and
the Python rendering `"None"` of a missing stream field otherwise. -/
def line_text (l : LogLine) : String :=
  if line_truthy l then
    match l.stream with
    | some s => s
    | none => "None"
  else ""

/-- Source `builder.py:build`, reduced over the decoded event sequence the
docker engine streams back: forward text for each event until the first
event with a truthy error payload, which raises a `BuildingException`
wrapping that event (later events are not consumed).  Returns the forwarded
text and the outcome. -/
def build : List LogLine → String × Except BuildingException Unit
  | [] => ("", .ok ())
  | l :: ls =>
      if error_truthy l then ("", .error ⟨l⟩)
      else
        let rest := build ls
        (line_text l ++ rest.1, rest.2)

/-- The value of a caller-supplied build option (`option['value']`): a
boolean for toggle options, the basename string for file options, or
Python `None` when the option was not supplied. -/
inductive OptionValue : Type where
  | boolVal (b : Bool)
  | strVal (s : String)
  | noneVal
  deriving DecidableEq, Repr

/-- Python truthiness of an option value. -/
def option_truthy : OptionValue → Bool
  | .boolVal b => b
  | .strVal s => !(s == "")
  | .noneVal => false

/-- The archive name an included option file is stored under
(`arcname=option['value']`; only string values occur for file options). -/
def optionArcname : OptionValue → String
  | .strVal s => s
  | .boolVal b => if b then "True" else "False"
  | .noneVal => "None"

/-- One resolved build option as `docker_context` consumes it: its value,
the `include_file` flag of its definition, and the resolved local path. -/
structure PyOption : Type where
  value : OptionValue
  includeFile : Bool
  localPath : String
  deriving DecidableEq, Repr

/-- Source `builder.py:prepare_string_for_tar`: a named in-memory tar entry
for the rendered build definition (modelled as name and content). -/
def prepare_string_for_tar (name content : String) : String × String := (name, content)

/-- Lexicographic comparison of strings by code points (Python `sorted`). -/
def charListLe : List Char → List Char → Bool
  | [], _ => true
  | _ :: _, [] => false
  | a :: as, b :: bs => if a < b then true else if b < a then false else charListLe as bs

/-- Insert into a sorted list (ascending, Python string order). -/
def insertSorted (x : String) : List String → List String
  | [] => [x]
  | y :: ys => if charListLe x.data y.data then x :: y :: ys else y :: insertSorted x ys

/-- Model of Python `sorted` on strings (insertion sort; same result as
Python's stable sort because the order is total). -/
def pySorted (l : List String) : List String := l.foldr insertSorted []

/-- Source `builder.py:docker_context`, modelled as the list of archive entry
names it produces.  Inputs: the rendered Dockerfile text; the lines of the
`.dockerignore` file (`none` when the file does not exist — the source then
leaves `exclude = None`); the external `docker.utils.exclude_paths` walk as
an abstract function from the cleaned patterns to the relative paths it
returns; and the resolved options.  The entries are: the `Dockerfile` entry
added first via `prepare_string_for_tar`, then the sorted walked paths, then
one entry per truthy file option under its option-value arcname. -/
def docker_context (dockerfile_content : String) (dockerignoreLines : Option (List String))
    (excludePathsFn : List String → List String) (options : List PyOption) :
    Except PyError (List String) :=
  match clean_dockerignore
      (Option.map (fun lines => lines.filter (fun l => !(l == ""))) dockerignoreLines) with
  | .error e => .error e
  | .ok exclude =>
      .ok ((prepare_string_for_tar "Dockerfile" dockerfile_content).1 ::
        (pySorted (excludePathsFn exclude) ++
          ((options.filter (fun o => option_truthy o.value && o.includeFile)).map
            (fun o => optionArcname o.value))))

/-- A matrix definition as `build_all_combinations` consumes it: the ordered
axes (`matrix['matrix']`), the optional blacklist (`matrix.get('blacklist')`,
`None` when the key is absent), and the two templates. -/
structure Matrix : Type where
  axes : List (String × List String)
  blacklist : Option (List (List (String × String)))
  image_id : String
  image_name : String
  deriving DecidableEq, Repr

/-- Source `builder.py:get_image_name`: format the id template with the
combination, hash it, and substitute the hex digest for the reserved `ID`
placeholder of the name template. -/
def get_image_name (combination : List (String × String)) (matrix : Matrix) :
    Except PyError String :=
  match pyFormat matrix.image_id combination with
  | .error e => .error e
  | .ok formatted_image_id => pyFormat matrix.image_name [("ID", sha1hex formatted_image_id)]

/-- The pure subset test at the heart of `is_blacklisted`: some blacklist
entry's key-value pairs are all contained in the combination's pairs. -/
def is_blacklisted_list (combination : List (String × String))
    (blacklist : List (List (String × String))) : Bool :=
  blacklist.any (fun entry => entry.all (fun pair => decide (pair ∈ combination)))

/-- Source `builder.py:is_blacklisted`, at its call site: the blacklist is
`matrix.get('blacklist')`, so iterating it raises a `TypeError` when the
matrix has no blacklist key (`None`). -/
def is_blacklisted (combination : List (String × String)) :
    Option (List (List (String × String))) → Except PyError Bool
  | none => .error (.typeError "NoneType object is not iterable")
  | some blacklist => .ok (is_blacklisted_list combination blacklist)

/-- Model of `itertools.product(*valueLists)`: rightmost axis varies fastest. -/
def pyProduct {α : Type} : List (List α) → List (List α)
  | [] => [[]]
  | vs :: rest => vs.flatMap (fun v => (pyProduct rest).map (fun t => v :: t))

/-- All product tuples of a matrix's axes, each zipped with the axis names
(`dict(zip(matrix, combination))`), in `itertools.product` order. -/
def combosOf (axes : List (String × List String)) : List (List (String × String)) :=
  (pyProduct (axes.map Prod.snd)).map (fun t => (axes.map Prod.fst).zip t)

/-- Loop of `get_all_combinations`: keep the tuples that are not
blacklisted, propagating the `TypeError` a `None` blacklist raises. -/
def get_all_combinations_go (blacklist : Option (List (List (String × String)))) :
    List (List (String × String)) → Except PyError (List (List (String × String)))
  | [] => .ok []
  | c :: cs =>
      match is_blacklisted c blacklist with
      | .error e => .error e
      | .ok true => get_all_combinations_go blacklist cs
      | .ok false =>
          match get_all_combinations_go blacklist cs with
          | .error e => .error e
          | .ok rest => .ok (c :: rest)

/-- Source `builder.py:get_all_combinations`. -/
def get_all_combinations (axes : List (String × List String))
    (blacklist : Option (List (List (String × String)))) :
    Except PyError (List (List (String × String))) :=
  get_all_combinations_go blacklist (combosOf axes)

/-- The terminal line printed for a combination: either the success line or
the failure line carrying the caught `BuildingException`. -/
inductive Report : Type where
  | success (image : String) (combination : List (String × String))
  | failure (image : String) (combination : List (String × String)) (exc : BuildingException)
  deriving DecidableEq, Repr

/-- The body of the `build_all_combinations` loop for one combination, with
the external stages abstract: `render` is the jinja2 `template.render` call,
`pack` the `docker_context` call (whose I/O failures are modelled by the
function's `Except`), `buildFn` the docker build call.  Only the build call
sits inside the `try`, so its `BuildingException` becomes a failure report
while render, pack and naming errors propagate. -/
def combo_step {γ : Type} (matrix : Matrix)
    (render : List (String × String) → Except PyError String)
    (pack : String → Except PyError γ)
    (buildFn : γ → String → Except BuildingException Unit)
    (c : List (String × String)) : Except PyError Report :=
  match render c with
  | .error e => .error e
  | .ok dockerfile =>
      match pack dockerfile with
      | .error e => .error e
      | .ok context =>
          match get_image_name c matrix with
          | .error e => .error e
          | .ok image_name =>
              match buildFn context image_name with
              | .ok _ => .ok (.success image_name c)
              | .error exc => .ok (.failure image_name c exc)

/-- The `for combination in combinations` loop of `build_all_combinations`:
reports accumulate in order; an uncaught error aborts the loop, leaving the
remaining combinations unattempted. -/
def run_combinations {γ : Type} (matrix : Matrix)
    (render : List (String × String) → Except PyError String)
    (pack : String → Except PyError γ)
    (buildFn : γ → String → Except BuildingException Unit) :
    List (List (String × String)) → List Report × Except PyError Unit
  | [] => ([], .ok ())
  | c :: cs =>
      match combo_step matrix render pack buildFn c with
      | .error e => ([], .error e)
      | .ok r =>
          let rest := run_combinations matrix render pack buildFn cs
          (r :: rest.1, rest.2)

/-- Source `builder.py:build_all_combinations`: expand the combinations,
then run the per-combination loop. -/
def build_all_combinations {γ : Type} (matrix : Matrix)
    (render : List (String × String) → Except PyError String)
    (pack : String → Except PyError γ)
    (buildFn : γ → String → Except BuildingException Unit) :
    List Report × Except PyError Unit :=
  match get_all_combinations matrix.axes matrix.blacklist with
  | .error e => ([], .error e)
  | .ok combinations => run_combinations matrix render pack buildFn combinations

/-! ### Spec-side definitions and concrete fixtures -/

/-- The per-pattern expansion `clean_dockerignore` actually performs (for the
amended claim C4): split on the marker, strip trailing slashes of the header
and leading slashes of the tail, and join with `i` single-level wildcard
segments for each `i < 20`; markerless patterns pass through unchanged. -/
def expandPattern (p : String) : List String :=
  match pySplitMarker p with
  | [header, tail] =>
      (List.range 20).map (fun i =>
        osJoin (rstripSlash header :: (List.replicate i "*" ++ [lstripSlash tail])))
  | _ => [p]

/-- The expansion exactly as claim C4 words it: the text before the marker
(unchanged), `i` single-level wildcard segments, and the text after the
marker with its leading slashes stripped, joined. -/
def claimExpandPattern (p : String) : List String :=
  match pySplitMarker p with
  | [header, tail] =>
      (List.range 20).map (fun i =>
        osJoin (header :: (List.replicate i "*" ++ [lstripSlash tail])))
  | _ => [p]

/-- The forwarded text as claim C6 words it: the stream texts of the events
before the first error event, concatenated verbatim (an event without stream
text contributes nothing). -/
def specForwardText (lines : List LogLine) : String :=
  ((lines.takeWhile (fun l => !error_truthy l)).map (fun l => l.stream.getD "")).foldr
    (fun s acc => s ++ acc) ""

/-- Concrete three-combination matrix used by the C2 scenario: one axis with
three values, an empty (but present) blacklist, and a name template with no
placeholder so the image name is the same literal for every combination. -/
def exMatrix : Matrix := ⟨[("os", ["a", "b", "c"])], some [], "id-{os}", "img"⟩

/-- Concrete renderer for the C2 scenario: the rendered Dockerfile text is
the combination's `os` value. -/
def exRender (c : List (String × String)) : Except PyError String :=
  .ok ((envLookup "os" c).getD "")

/-- Concrete packer for the C2 scenario: packing fails with an I/O error on
the Dockerfile rendered for the second combination. -/
def exPack (dockerfile : String) : Except PyError String :=
  if dockerfile = "b" then .error (.ioError "disk full") else .ok dockerfile

/-- Concrete build call for the C2 scenario: every build succeeds. -/
def exBuild (_context : String) (_tag : String) : Except BuildingException Unit := .ok ()

/-- Concrete matrix for the C9 scenario: its id template references the axis
name `version`, which is not an axis of the matrix. -/
def badMatrix : Matrix := ⟨[("os", ["a", "b"])], some [], "img-{version}", "proj"⟩

/-- Trivial renderer for the C9 scenario. -/
def okRender (_c : List (String × String)) : Except PyError String := .ok "FROM x"

/-- Trivial packer for the C9 scenario. -/
def okPack (_dockerfile : String) : Except PyError Unit := .ok ()

/-- Trivial build call for the C9 scenario. -/
def okBuild (_context : Unit) (_tag : String) : Except BuildingException Unit := .ok ()

/-! ### Helper lemmas -/

/-- A split with at least three parts makes the tuple unpacking of
`dir_wildcard_workaround` fail. -/
theorem dir_wildcard_workaround_error (p : String) (h : 3 ≤ (pySplitMarker p).length) :
    ∃ e, dir_wildcard_workaround p = .error e := by
  unfold dir_wildcard_workaround
  rcases hl : pySplitMarker p with _ | ⟨a, _ | ⟨b, _ | ⟨c, l⟩⟩⟩
  · rw [hl] at h; simp at h
  · rw [hl] at h; simp at h
  · rw [hl] at h; simp at h
  · exact ⟨_, rfl⟩

/-- If some pattern of the list makes the per-pattern expansion fail, the
whole cleaning loop fails. -/
theorem clean_dockerignore_go_error (ps : List String) (p : String) (hmem : p ∈ ps)
    (hm : hasMarker p = true) (e : PyError) (he : dir_wildcard_workaround p = .error e) :
    ∃ e2, clean_dockerignore_go ps = .error e2 := by
  induction ps with
  | nil => cases hmem
  | cons q rest ih =>
    rcases List.mem_cons.mp hmem with hq | hrest
    · subst hq
      simp only [clean_dockerignore_go, hm, if_pos, he]
      exact ⟨e, rfl⟩
    · obtain ⟨e2, h2⟩ := ih hrest
      simp only [clean_dockerignore_go, h2]
      by_cases hq2 : hasMarker q
      · simp only [hq2, if_pos]
        cases dir_wildcard_workaround q with
        | error e3 => exact ⟨e3, rfl⟩
        | ok _ => exact ⟨e2, rfl⟩
      · simp only [hq2, if_neg, Bool.false_eq_true, not_false_eq_true]
        exact ⟨e2, rfl⟩

/-- With a present (list) blacklist the expansion loop never fails and keeps
exactly the non-blacklisted tuples, in order. -/
theorem get_all_combinations_go_some (bl : List (List (String × String))) :
    ∀ l, get_all_combinations_go (some bl) l =
      .ok (l.filter (fun c => !is_blacklisted_list c bl)) := by
  intro l
  induction l with
  | nil => rfl
  | cons c cs ih =>
    simp only [get_all_combinations_go, is_blacklisted, ih, List.filter_cons]
    cases hb : is_blacklisted_list c bl <;> simp [hb]

/-- Dropping the elements satisfying `p` shortens a list by the number of
elements satisfying `p`. -/
theorem filter_not_length {α : Type} (p : α → Bool) (l : List α) :
    (l.filter (fun x => !p x)).length = l.length - (l.filter p).length := by
  induction l with
  | nil => rfl
  | cons x xs ih =>
    have hle := List.length_filter_le p xs
    cases hx : p x
    · simp [List.filter_cons, hx, ih]
      omega
    · simp [List.filter_cons, hx, ih]

/-! ### Claim theorems -/

/-- Claim C1: the claim states that packing a build context for a base
directory with no `.dockerignore` file succeeds, the absent file acting as
an empty pattern set.  The code instead leaves `exclude = None` and passes
it to `clean_dockerignore`, which iterates it: `docker_context` always
raises a `TypeError` when the ignore file is absent, whatever the directory
contents and options.  This supports the `code_bug` verdict. -/
theorem docker_context_missing_ignore_raises :
    ∀ (content : String) (excludePathsFn : List String → List String)
      (options : List PyOption),
      docker_context content none excludePathsFn options =
        .error (.typeError "NoneType object is not iterable") :=
  fun _ _ _ => rfl

/-- Claim C5: a combination is rejected iff some blacklist entry's key-value
pairs are all contained in the combination's pairs (subset test, not full
equality); in particular `a=1, b=2, c=3` is excluded by the entry
`a=1, b=2` but not by `a=1, b=9`. -/
theorem is_blacklisted_subset_iff :
    (∀ (c : List (String × String)) (bl : List (List (String × String))),
      is_blacklisted c (some bl) = .ok true ↔
        ∃ entry ∈ bl, ∀ pair ∈ entry, pair ∈ c) ∧
    is_blacklisted [("a", "1"), ("b", "2"), ("c", "3")] (some [[("a", "1"), ("b", "2")]]) =
      .ok true ∧
    is_blacklisted [("a", "1"), ("b", "2"), ("c", "3")] (some [[("a", "1"), ("b", "9")]]) =
      .ok false := by
  refine ⟨fun c bl => ?_, by decide, by decide⟩
  simp [is_blacklisted, is_blacklisted_list, List.any_eq_true, List.all_eq_true]

/-- Claim C3: with a present blacklist list the expansion yields exactly the
cartesian product minus the tuples matching at least one blacklist entry
(first two conjuncts).  But the claim's "no blacklist" case is a code bug:
`matrix.get('blacklist')` is `None` when the key is absent, and
`is_blacklisted` iterates it, so expanding the two-combination example
matrix without a blacklist raises a `TypeError` instead of yielding the
full product (third conjunct evaluates the code at the failing input). -/
theorem get_all_combinations_count :
    (∀ (axes : List (String × List String)) (bl : List (List (String × String))),
      get_all_combinations axes (some bl) =
        .ok ((combosOf axes).filter (fun c => !is_blacklisted_list c bl)) ∧
      ((combosOf axes).filter (fun c => !is_blacklisted_list c bl)).length =
        (combosOf axes).length -
          ((combosOf axes).filter (fun c => is_blacklisted_list c bl)).length) ∧
    get_all_combinations [("os", ["a", "b"])] none =
      .error (.typeError "NoneType object is not iterable") := by
  refine ⟨fun axes bl => ⟨?_, ?_⟩, rfl⟩
  · exact get_all_combinations_go_some bl (combosOf axes)
  · exact filter_not_length _ _

/-- Claim C10: a pattern containing the recursive-wildcard marker more than
once (its split has three or more parts) makes `clean_dockerignore` fail
with an error instead of returning any expanded list. -/
theorem clean_dockerignore_multi_marker_fails (ps : List String) (p : String)
    (hmem : p ∈ ps) (hsplit : 3 ≤ (pySplitMarker p).length) :
    exceptIsError (clean_dockerignore (some ps)) = true := by
  have hm : hasMarker p = true := by
    simp only [hasMarker, decide_eq_true_eq]
    omega
  obtain ⟨e, he⟩ := dir_wildcard_workaround_error p hsplit
  obtain ⟨e2, h2⟩ := clean_dockerignore_go_error ps p hmem hm e he
  simp [clean_dockerignore, h2, exceptIsError]

/-- Witness for C10 at the concrete pattern `a**b**c`. -/
theorem clean_dockerignore_multi_marker_fails_witness :
    ("a**b**c" ∈ ["x", "a**b**c"] ∧ 3 ≤ (pySplitMarker "a**b**c").length) ∧
      exceptIsError (clean_dockerignore (some ["x", "a**b**c"])) = true :=
  ⟨⟨by decide, by decide⟩,
    clean_dockerignore_multi_marker_fails ["x", "a**b**c"] "a**b**c" (by decide) (by decide)⟩

/-- Claim C4 counterexample: at the pattern `/**/x` the code strips the
trailing slash of the header (`'/'.rstrip('/') == ''`) before joining, so
normalization yields `x`, `*/x`, ... whereas the claim's wording (joining
the text before the marker unchanged) yields `/x`, `/*/x`, .... -/
theorem clean_dockerignore_head_slash_counterexample :
    clean_dockerignore (some ["/**/x"]) ≠ .ok (["/**/x"].flatMap claimExpandPattern) ∧
    Except.map (List.take 2) (clean_dockerignore (some ["/**/x"])) = .ok ["x", "*/x"] ∧
    (["/**/x"].flatMap claimExpandPattern).take 2 = ["/x", "/*/x"] :=
  ⟨by decide, by decide, by decide⟩

/-- Claim C4 (amended): every pattern with a single recursive-wildcard
marker is replaced in place by the twenty patterns joining the text before
the marker with its trailing slashes stripped, `i` single-level wildcard
segments for `i < 20`, and the text after the marker with its leading
slashes stripped; markerless patterns pass through unchanged and input
order is preserved. -/
theorem clean_dockerignore_expansion (ps : List String)
    (h : ∀ p ∈ ps, (pySplitMarker p).length ≤ 2) :
    clean_dockerignore (some ps) = .ok (ps.flatMap expandPattern) := by
  simp only [clean_dockerignore]
  induction ps with
  | nil => rfl
  | cons p rest ih =>
    have hp := h p (List.mem_cons_self p rest)
    have hih := ih (fun q hq => h q (List.mem_cons_of_mem p hq))
    simp only [clean_dockerignore_go, List.flatMap_cons]
    rcases hl : pySplitMarker p with _ | ⟨a, _ | ⟨b, _ | ⟨c, l⟩⟩⟩
    · have hm : hasMarker p = false := by simp [hasMarker, hl]
      simp [hm, hih, expandPattern, hl]
    · have hm : hasMarker p = false := by simp [hasMarker, hl]
      simp [hm, hih, expandPattern, hl]
    · have hm : hasMarker p = true := by simp [hasMarker, hl]
      simp [hm, hih, expandPattern, dir_wildcard_workaround, hl]
    · rw [hl] at hp; simp at hp

/-- Witness for C4 (amended) at the claim's own example pattern. -/
theorem clean_dockerignore_expansion_witness :
    clean_dockerignore (some ["src/**/node_modules", "keep.txt"]) =
      .ok (["src/**/node_modules", "keep.txt"].flatMap expandPattern) ∧
    (["src/**/node_modules", "keep.txt"].flatMap expandPattern).take 3 =
      ["src/node_modules", "src/*/node_modules", "src/*/*/node_modules"] :=
  ⟨clean_dockerignore_expansion ["src/**/node_modules", "keep.txt"] (by decide), by decide⟩

/-- `consOut` forwards errors unchanged. -/
theorem exceptIsError_consOut (c : Char) (x : Except PyError (List Char)) :
    exceptIsError (consOut c x) = exceptIsError x := by
  cases x <;> rfl

/-- Claim C6 counterexample: a truthy event with no stream text (for example
a decoded status line) is forwarded as the Python rendering `"None"` of the
missing field, not as the empty stream text claimed. -/
theorem build_streamless_event_counterexample :
    (build [⟨none, none, 1⟩]).1 = "None" ∧
    specForwardText [⟨none, none, 1⟩] = "" ∧
    (build [⟨none, none, 1⟩]).1 ≠ specForwardText [⟨none, none, 1⟩] :=
  ⟨rfl, rfl, by decide⟩

/-- Claim C6 (amended): the build call forwards, in arrival order and with
no added newline, the displayed text of every event before the first one
with a truthy error payload — the stream text when present, the text
`"None"` for a truthy event lacking it, nothing for a falsy event.  At the
first truthy-error event it fails with a `BuildingException` carrying that
event, consuming no later event; with no such event it succeeds once the
sequence ends. -/
theorem build_stream_characterization (lines : List LogLine) :
    build lines =
      (((lines.takeWhile (fun l => !error_truthy l)).map line_text).foldr
          (fun s acc => s ++ acc) "",
        match lines.dropWhile (fun l => !error_truthy l) with
        | [] => .ok ()
        | l :: _ => .error ⟨l⟩) := by
  induction lines with
  | nil => rfl
  | cons l ls ih =>
    cases he : error_truthy l
    · simp [build, he, List.takeWhile_cons, List.dropWhile_cons, ih]
    · simp [build, he, List.takeWhile_cons, List.dropWhile_cons]

/-- Insertion keeps element counts. -/
theorem count_insertSorted (a x : String) (l : List String) :
    List.count a (insertSorted x l) = List.count a (x :: l) := by
  induction l with
  | nil => rfl
  | cons y ys ih =>
    simp only [insertSorted]
    by_cases hle : charListLe x.data y.data
    · rw [if_pos hle]
    · rw [if_neg hle]
      simp only [List.count_cons] at ih ⊢
      omega

/-- Sorting keeps element counts. -/
theorem count_pySorted (a : String) (l : List String) :
    List.count a (pySorted l) = List.count a l := by
  simp only [pySorted]
  induction l with
  | nil => rfl
  | cons x xs ih =>
    simp only [List.foldr_cons, count_insertSorted, List.count_cons, ih]

/-- Claim C7 counterexample: a base directory containing a non-excluded file
named `Dockerfile` (the external walk returns it) yields an archive with two
entries under the reserved name, refuting "never more than one". -/
theorem docker_context_duplicate_dockerfile_counterexample :
    docker_context "FROM scratch" (some []) (fun _ => ["Dockerfile"]) [] =
      .ok ["Dockerfile", "Dockerfile"] ∧
    List.count "Dockerfile" ["Dockerfile", "Dockerfile"] ≠ 1 :=
  ⟨rfl, by decide⟩

/-- Claim C7 (amended): the rendered build definition is always archived
first under the reserved name `Dockerfile`, and the archive contains exactly
one entry under that name provided neither the walked base-directory paths
nor the included option arcnames themselves use the reserved name (a base
directory containing a non-excluded file named `Dockerfile`, or an option
file of that basename, contributes a further entry). -/
theorem docker_context_reserved_name (content : String) (ign : Option (List String))
    (exf : List String → List String) (opts : List PyOption) (res : List String)
    (hok : docker_context content ign exf opts = .ok res)
    (hf : ∀ pats, "Dockerfile" ∉ exf pats)
    (ho : ∀ o ∈ opts, (option_truthy o.value && o.includeFile) = true →
      optionArcname o.value ≠ "Dockerfile") :
    res.headI = "Dockerfile" ∧ List.count "Dockerfile" res = 1 := by
  unfold docker_context at hok
  cases hc : clean_dockerignore
      (Option.map (fun lines => lines.filter (fun l => !(l == ""))) ign) with
  | error e => rw [hc] at hok; cases hok
  | ok exclude =>
    rw [hc] at hok
    injection hok with hok
    subst hok
    refine ⟨rfl, ?_⟩
    have hsorted : List.count "Dockerfile" (pySorted (exf exclude)) = 0 := by
      rw [count_pySorted]
      exact List.count_eq_zero.mpr (hf exclude)
    have hopts : List.count "Dockerfile"
        ((opts.filter (fun o => option_truthy o.value && o.includeFile)).map
          (fun o => optionArcname o.value)) = 0 := by
      refine List.count_eq_zero.mpr ?_
      intro hmem
      obtain ⟨o, hofil, harc⟩ := List.mem_map.mp hmem
      obtain ⟨homem, hotruthy⟩ := List.mem_filter.mp hofil
      exact ho o homem hotruthy harc
    simp [prepare_string_for_tar, List.count_cons, List.count_append, hsorted, hopts]

/-- Witness for C7 (amended): a walk returning one ordinary file gives an
archive with exactly one `Dockerfile` entry, in first position. -/
theorem docker_context_reserved_name_witness :
    docker_context "FROM scratch" (some []) (fun _ => ["app.py"]) [] =
      .ok ["Dockerfile", "app.py"] ∧
    (["Dockerfile", "app.py"] : List String).headI = "Dockerfile" ∧
    List.count "Dockerfile" ["Dockerfile", "app.py"] = 1 :=
  ⟨rfl,
    docker_context_reserved_name "FROM scratch" (some []) (fun _ => ["app.py"]) []
      ["Dockerfile", "app.py"] rfl
      (by intro pats; show "Dockerfile" ∉ ["app.py"]; decide) (by simp)⟩

/-- The hex digest always has forty characters. -/
theorem sha1hex_length (s : String) : (sha1hex s).length = 40 := by
  simp [sha1hex, hex32, String.length_append, String.length]

/-- Claim C8: `get_image_name` is a pure function of the combination and the
matrix's two templates — equal combinations and equal templates give the
identical name, whatever the rest of the matrices — and it is exactly the
composition the claim describes: format the id template with the
combination, hex-digest it with the fixed-length hash, and substitute the
digest for the reserved `ID` placeholder of the name template. -/
theorem get_image_name_deterministic (c c2 : List (String × String)) (m m2 : Matrix)
    (h1 : m.image_id = m2.image_id) (h2 : m.image_name = m2.image_name) (hc : c = c2) :
    get_image_name c m = get_image_name c2 m2 ∧
    get_image_name c m = (match pyFormat m.image_id c with
      | .error e => .error e
      | .ok formatted_image_id =>
          pyFormat m.image_name [("ID", sha1hex formatted_image_id)]) ∧
    ∀ s, (sha1hex s).length = 40 := by
  subst hc
  refine ⟨?_, rfl, sha1hex_length⟩
  simp [get_image_name, h1, h2]

/-- Witness for C8: two matrices sharing the templates but differing in axes
and blacklist name the same combination identically, and the digest of the
formatted id has the fixed length. -/
theorem get_image_name_deterministic_witness :
    get_image_name [("os", "a")] ⟨[("os", ["a"])], some [], "img-{os}", "proj-{ID}"⟩ =
      get_image_name [("os", "a")] ⟨[], none, "img-{os}", "proj-{ID}"⟩ ∧
    (sha1hex "img-a").length = 40 :=
  ⟨(get_image_name_deterministic [("os", "a")] [("os", "a")]
      ⟨[("os", ["a"])], some [], "img-{os}", "proj-{ID}"⟩
      ⟨[], none, "img-{os}", "proj-{ID}"⟩ rfl rfl rfl).1,
    (get_image_name_deterministic [("os", "a")] [("os", "a")]
      ⟨[("os", ["a"])], some [], "img-{os}", "proj-{ID}"⟩
      ⟨[], none, "img-{os}", "proj-{ID}"⟩ rfl rfl rfl).2.2 "img-a"⟩

set_option maxRecDepth 10000

/-- Claim C2 counterexample: over the three-combination matrix whose second
combination fails during packing, only the first combination is reported;
the I/O error escapes the loop and the third combination is never
attempted, refuting "all n combinations are still attempted". -/
theorem run_pack_failure_counterexample :
    Except.map List.length (get_all_combinations exMatrix.axes exMatrix.blacklist) =
      .ok 3 ∧
    build_all_combinations exMatrix exRender exPack exBuild =
      ([Report.success "img" [("os", "a")]], .error (.ioError "disk full")) :=
  ⟨by decide, by decide⟩

/-- Claim C2 (amended): packing failures are not caught — only the build
call sits inside the `try`.  If the stages before the build call succeed for
a prefix of the combinations and packing then fails for the next one, the
run aborts with that error: the prefix is reported exactly once, in
combination order, and the failing and the remaining combinations are not
attempted. -/
theorem run_abort_on_pack_failure {γ : Type} (matrix : Matrix)
    (render : List (String × String) → Except PyError String)
    (pack : String → Except PyError γ)
    (buildFn : γ → String → Except BuildingException Unit)
    (pre : List (List (String × String))) (c : List (String × String))
    (post : List (List (String × String))) (rs : List Report) (df : String) (e : PyError)
    (hpre : List.Forall₂
      (fun c2 r => combo_step matrix render pack buildFn c2 = .ok r) pre rs)
    (hr : render c = .ok df) (hp : pack df = .error e) :
    run_combinations matrix render pack buildFn (pre ++ c :: post) = (rs, .error e) := by
  induction hpre with
  | nil => simp only [List.nil_append, run_combinations, combo_step, hr, hp]
  | cons hstep htail ih =>
      simp only [List.cons_append, run_combinations, hstep, List.append_eq, ih]

/-- Witness for C2 (amended) on the concrete three-combination scenario. -/
theorem run_abort_on_pack_failure_witness :
    run_combinations exMatrix exRender exPack exBuild
        [[("os", "a")], [("os", "b")], [("os", "c")]] =
      ([Report.success "img" [("os", "a")]], .error (.ioError "disk full")) :=
  run_abort_on_pack_failure exMatrix exRender exPack exBuild
    [[("os", "a")]] [("os", "b")] [[("os", "c")]]
    [Report.success "img" [("os", "a")]] "b" (.ioError "disk full")
    (List.Forall₂.cons (by decide) List.Forall₂.nil) (by decide) (by decide)

/-- `substField` fails whenever its continuation failed. -/
theorem substField_error_of_error (env : List (String × String)) (acc : List Char)
    (x : Except PyError (List Char)) (hx : exceptIsError x = true) :
    exceptIsError (substField env acc x) = true := by
  cases x with
  | ok out => simp [exceptIsError] at hx
  | error e =>
    simp only [substField]
    cases envLookup (String.mk acc.reverse) env <;> rfl

/-- `substField` fails whenever the field name is not in the environment. -/
theorem substField_error_none (env : List (String × String)) (acc : List Char)
    (x : Except PyError (List Char)) (hl : envLookup (String.mk acc.reverse) env = none) :
    exceptIsError (substField env acc x) = true := by
  cases x <;> simp [substField, hl, exceptIsError]

/-- A referenced field name missing from the environment makes the format
scan fail, whatever else the template contains. -/
theorem pyFormatGo_error_of_missing (env : List (String × String)) (n : String)
    (hn : envLookup n env = none) :
    ∀ (cs : List Char) (mode : FmtMode), n ∈ refNamesGo cs mode →
      exceptIsError (pyFormatGo env cs mode) = true := by
  intro cs
  induction cs with
  | nil =>
    intro mode h
    simp only [refNamesGo] at h
    cases h
  | cons c cs ih =>
    intro mode h
    cases mode with
    | text =>
      simp only [refNamesGo] at h
      simp only [pyFormatGo]
      by_cases h1 : c = lbrace
      · rw [if_pos h1] at h ⊢; exact ih _ h
      · rw [if_neg h1] at h ⊢
        by_cases h2 : c = rbrace
        · rw [if_pos h2] at h ⊢; exact ih _ h
        · rw [if_neg h2] at h ⊢
          rw [exceptIsError_consOut]
          exact ih _ h
    | sawL =>
      simp only [refNamesGo] at h
      simp only [pyFormatGo]
      by_cases h1 : c = lbrace
      · rw [if_pos h1] at h ⊢
        rw [exceptIsError_consOut]
        exact ih _ h
      · rw [if_neg h1] at h ⊢
        by_cases h2 : c = rbrace
        · rw [if_pos h2] at h ⊢
          rcases List.mem_cons.mp h with hn2 | hrest
          · subst hn2
            exact substField_error_none env [] _ hn
          · exact substField_error_of_error env [] _ (ih _ hrest)
        · rw [if_neg h2] at h ⊢
          exact ih _ h
    | sawR =>
      simp only [refNamesGo] at h
      simp only [pyFormatGo]
      by_cases h1 : c = rbrace
      · rw [if_pos h1] at h ⊢
        rw [exceptIsError_consOut]
        exact ih _ h
      · rw [if_neg h1] at h
        cases h
    | name acc =>
      simp only [refNamesGo] at h
      simp only [pyFormatGo]
      by_cases h1 : c = rbrace
      · rw [if_pos h1] at h ⊢
        rcases List.mem_cons.mp h with hn2 | hrest
        · subst hn2
          exact substField_error_none env acc _ hn
        · exact substField_error_of_error env acc _ (ih _ hrest)
      · rw [if_neg h1] at h ⊢
        by_cases h2 : c = lbrace
        · rw [if_pos h2] at h
          cases h
        · rw [if_neg h2] at h ⊢
          exact ih _ h

/-- Formatting a template that references a name missing from the keyword
environment fails. -/
theorem pyFormat_error_of_missing (template : String) (env : List (String × String))
    (n : String) (hmem : n ∈ pyRefNames template) (hn : envLookup n env = none) :
    exceptIsError (pyFormat template env) = true := by
  have hgo := pyFormatGo_error_of_missing env n hn template.data .text hmem
  unfold pyFormat
  cases hres : pyFormatGo env template.data .text with
  | ok out => rw [hres] at hgo; simp [exceptIsError] at hgo
  | error e => rfl

/-- `get_image_name` fails when either template references a non-reserved
name the combination does not bind. -/
theorem get_image_name_error_of_missing (c : List (String × String)) (m : Matrix)
    (n : String)
    (hn : (n ∈ pyRefNames m.image_id ∧ envLookup n c = none) ∨
      (n ∈ pyRefNames m.image_name ∧ envLookup n c = none ∧ n ≠ "ID")) :
    exceptIsError (get_image_name c m) = true := by
  unfold get_image_name
  rcases hn with ⟨hm, hl⟩ | ⟨hm, _, hid⟩
  · have herr := pyFormat_error_of_missing m.image_id c n hm hl
    cases hres : pyFormat m.image_id c with
    | ok fid => rw [hres] at herr; simp [exceptIsError] at herr
    | error e => rfl
  · cases hres : pyFormat m.image_id c with
    | error e => rfl
    | ok fid =>
      apply pyFormat_error_of_missing m.image_name _ n hm
      simp only [envLookup]
      rw [if_neg (fun h => hid h.symm)]

/-- Claim C9: when the id template or the name template references an axis
name absent from the combination (and distinct from the reserved `ID`
placeholder of the name template), computing the image name fails, the
failure is not caught per combination, and the whole run aborts with no
combination reported — whatever the remaining combinations were. -/
theorem missing_axis_aborts_run {γ : Type} (matrix : Matrix)
    (render : List (String × String) → Except PyError String)
    (pack : String → Except PyError γ)
    (buildFn : γ → String → Except BuildingException Unit)
    (c : List (String × String)) (rest : List (List (String × String)))
    (n : String) (df : String) (ctx : γ)
    (hg : get_all_combinations matrix.axes matrix.blacklist = .ok (c :: rest))
    (hn : (n ∈ pyRefNames matrix.image_id ∧ envLookup n c = none) ∨
      (n ∈ pyRefNames matrix.image_name ∧ envLookup n c = none ∧ n ≠ "ID"))
    (hr : render c = .ok df) (hp : pack df = .ok ctx) :
    (build_all_combinations matrix render pack buildFn).1 = [] ∧
    exceptIsError (build_all_combinations matrix render pack buildFn).2 = true := by
  have herr := get_image_name_error_of_missing c matrix n hn
  obtain ⟨e, he⟩ : ∃ e, get_image_name c matrix = .error e := by
    cases hres : get_image_name c matrix with
    | error e => exact ⟨e, rfl⟩
    | ok v => rw [hres] at herr; simp [exceptIsError] at herr
  unfold build_all_combinations
  rw [hg]
  simp [run_combinations, combo_step, hr, hp, he, exceptIsError]

/-- Witness for C9: the matrix whose id template references the absent axis
`version` aborts the run with no report. -/
theorem missing_axis_aborts_run_witness :
    (build_all_combinations badMatrix okRender okPack okBuild).1 = [] ∧
    exceptIsError (build_all_combinations badMatrix okRender okPack okBuild).2 = true :=
  missing_axis_aborts_run badMatrix okRender okPack okBuild
    [("os", "a")] [[("os", "b")]] "version" "FROM x" ()
    (by decide) (Or.inl ⟨by decide, by decide⟩) (by decide) (by decide)

end Builder
